import Mathlib

/-!
Verification development for the libxml-ruby binding layer, covering the two
adapters in `ext/libxml/ruby_xml_dtd.c` and `ext/libxml/ruby_xml_writer.c`.

The C files are thin glue between the Ruby object model and libxml2.  The
shallow embedding below models Ruby `VALUE`s as an inductive type restricted
to the shapes these adapters handle, native libxml2 objects as explicit Lean
structures, in-place mutation as explicit state passing, and Ruby exceptions
(`rb_raise` / `rxml_raise`, which unwind via longjmp) as `Except`.
Calls into libxml2 routines whose bodies live outside this repository are
modelled either as function parameters (when a claim holds for any native
outcome) or as concrete functions transcribing libxml2's documented
behaviour (when a claim depends on it); each such definition says which.
-/

set_option autoImplicit false

namespace LibXmlRuby

/-- Ruby `VALUE`, restricted to the shapes the two adapters inspect:
`Qnil`, `Qfalse`, `Qtrue`, a `String`, an `Integer`, a wrapped
`LibXML::XML::Document` (identified by the id of its native `xmlDoc`),
and any other object. -/
inductive RValue where
  | vNil
  | vFalse
  | vTrue
  | vStr (s : String)
  | vInt (n : Int)
  | vDoc (d : Nat)
  | vOther
  deriving DecidableEq, Repr

/-- Ruby truthiness (`RTEST`): everything except `nil` and `false` is truthy. -/
def rtest (v : RValue) : Bool :=
  !(v == RValue.vNil || v == RValue.vFalse)

/-- Ruby exceptions these adapters can raise: `rb_eTypeError`,
`rb_eArgError`, and `rxml_raise(xmlGetLastError())`, which surfaces the
native library's last-error diagnostic as a libxml-ruby error object. -/
inductive RubyError where
  | typeError (msg : String)
  | argError (msg : String)
  | libxml (diagnostic : String)
  deriving DecidableEq, Repr

/-- A native `xmlDoc`, opaque to the DTD adapter beyond its identity. -/
structure XmlDoc where
  id : Nat
  deriving DecidableEq, Repr

/-- A native `xmlDtd` as the DTD adapter reads it: `name`, `ExternalID`
(public identifier), `SystemID` (system identifier / URI), the node-type
tag, and the back-references to the owning document and parent node
(`NULL` modelled as `none`). -/
structure XmlDtd where
  name : Option String
  externalID : Option String
  systemID : Option String
  type : Int
  doc : Option XmlDoc
  parent : Option Nat
  deriving DecidableEq, Repr

/-- Embeds `rxml_dtd_free`, the release routine the garbage collector runs
when a DTD handle is collected.  Returns `true` iff `xmlFreeDtd` is invoked
on the native object: the C code frees only when both `xdtd->doc` and
`xdtd->parent` are `NULL`, and otherwise does nothing. -/
def rxml_dtd_free (xdtd : XmlDtd) : Bool :=
  if xdtd.doc = none ∧ xdtd.parent = none then
    true
  else
    false

/-- Embeds `rxml_dtd_external_id_get`: `Qnil` when `xdtd->ExternalID` is
`NULL`, otherwise the field's text.  A pure read with no side effects. -/
def rxml_dtd_external_id_get (xdtd : XmlDtd) : RValue :=
  match xdtd.externalID with
  | none => RValue.vNil
  | some s => RValue.vStr s

/-- Embeds `rxml_dtd_name_get`: `Qnil` when `xdtd->name` is `NULL`,
otherwise the field's text.  A pure read with no side effects. -/
def rxml_dtd_name_get (xdtd : XmlDtd) : RValue :=
  match xdtd.name with
  | none => RValue.vNil
  | some s => RValue.vStr s

/-- Embeds `rxml_dtd_uri_get`: `Qnil` when `xdtd->SystemID` is `NULL`,
otherwise the field's text.  A pure read with no side effects. -/
def rxml_dtd_uri_get (xdtd : XmlDtd) : RValue :=
  match xdtd.systemID with
  | none => RValue.vNil
  | some s => RValue.vStr s

/-- Embeds `rxml_dtd_type`: returns the node-type tag as an integer. -/
def rxml_dtd_type (xdtd : XmlDtd) : RValue :=
  RValue.vInt xdtd.type

/-- Embeds the `rb_define_alias(cXMLDtd, "system_id", "uri")` registration:
`system_id` dispatches to the very same accessor as `uri`. -/
def rxml_dtd_system_id_get (xdtd : XmlDtd) : RValue :=
  rxml_dtd_uri_get xdtd

/-- Claim C1: the release routine invoked at collection frees the native
DTD object if and only if, at that time, the object has no owning document
and no parent node; when either is set, release is a no-op. -/
theorem dtd_free_iff_unowned (xdtd : XmlDtd) :
    rxml_dtd_free xdtd = true ↔ (xdtd.doc = none ∧ xdtd.parent = none) := by
  unfold rxml_dtd_free
  split
  · simp_all
  · simp_all

/-- Claim C8: each read-only DTD accessor returns `nil` when the underlying
native field is unset and otherwise returns the field's text value or
integer tag unchanged; `uri` and `system_id` are two names returning the
same value.  (The accessors are pure functions of the native object, so
they have no side effects by construction.) -/
theorem dtd_accessors_spec (xdtd : XmlDtd) :
    (xdtd.externalID = none → rxml_dtd_external_id_get xdtd = RValue.vNil)
    ∧ (∀ s, xdtd.externalID = some s → rxml_dtd_external_id_get xdtd = RValue.vStr s)
    ∧ (xdtd.name = none → rxml_dtd_name_get xdtd = RValue.vNil)
    ∧ (∀ s, xdtd.name = some s → rxml_dtd_name_get xdtd = RValue.vStr s)
    ∧ (xdtd.systemID = none → rxml_dtd_uri_get xdtd = RValue.vNil)
    ∧ (∀ s, xdtd.systemID = some s → rxml_dtd_uri_get xdtd = RValue.vStr s)
    ∧ rxml_dtd_system_id_get xdtd = rxml_dtd_uri_get xdtd
    ∧ rxml_dtd_type xdtd = RValue.vInt xdtd.type := by
  refine ⟨?_, ?_, ?_, ?_, ?_, ?_, rfl, rfl⟩ <;>
    simp_all [rxml_dtd_external_id_get, rxml_dtd_name_get, rxml_dtd_uri_get]

/-- Witness for C8 at two concrete DTD objects, one with every field set
and one with every optional field unset. -/
theorem dtd_accessors_spec_witness :
    rxml_dtd_external_id_get
        { name := some "html", externalID := some "-//W3C//DTD XHTML 1.1//EN",
          systemID := some "http://www.w3.org/TR/xhtml11/DTD/xhtml11.dtd",
          type := 14, doc := none, parent := none } =
      RValue.vStr "-//W3C//DTD XHTML 1.1//EN"
    ∧ rxml_dtd_name_get
        { name := none, externalID := none, systemID := none,
          type := 14, doc := none, parent := none } = RValue.vNil := by
  refine ⟨?_, ?_⟩
  · exact (dtd_accessors_spec _).2.1 _ rfl
  · exact (dtd_accessors_spec _).2.2.1 rfl

/-- The native creation/parse routines the DTD constructor can invoke;
recorded in a trace so that "raised before any native creation or parse
call was attempted" is expressible. -/
inductive NativeCall where
  | newDtd
  | createIntSubset
  | parseDTD
  | ioParseDTD
  deriving DecidableEq, Repr

/-- Behaviour of the libxml2 routines the DTD constructor calls, kept
abstract (the bodies live in libxml2, outside this repository): each
returns the created/parsed native object, or `none` for a `NULL` result.
`lastError` models the library's last-error diagnostic read by
`xmlGetLastError` when a call fails. -/
structure NativeEnv where
  newDtd : Option XmlDoc → Option String → Option String → Option String → Option XmlDtd
  createIntSubset : Option XmlDoc → Option String → Option String → Option String → Option XmlDtd
  parseDTD : String → String → Option XmlDtd
  ioParseDTD : String → Option XmlDtd
  lastError : String

/-- Outcome of a successful `Dtd#initialize`: the stored native object and
whether the wrapper's release hook (`RDATA(self)->dfree`) is still
installed afterwards (`false` once the constructor sets it to `NULL`). -/
structure DtdInitResult where
  dtd : XmlDtd
  dfreeActive : Bool
  deriving DecidableEq, Repr

/-- Embeds `Check_Type(v, T_STRING)` followed by `StringValuePtr`: yields
the string, or raises `TypeError` for any non-string argument. -/
def checkTString (v : RValue) : Except RubyError String :=
  match v with
  | RValue.vStr s => Except.ok s
  | _ => Except.error (RubyError.typeError "wrong argument type (expected String)")

/-- Embeds the optional-name marshalling in the 3-5 argument branch:
`Qnil` passes through as `NULL`, a string is taken as-is, anything else
raises `TypeError` from `Check_Type`. -/
def marshalOptName (v : RValue) : Except RubyError (Option String) :=
  match v with
  | RValue.vNil => Except.ok none
  | RValue.vStr s => Except.ok (some s)
  | _ => Except.error (RubyError.typeError "wrong argument type (expected String)")

/-- Embeds the document-argument marshalling in the 3-5 argument branch:
`Qnil` yields no document; a wrapped `XML::Document` yields its native
`xmlDoc`; anything else raises `TypeError` before any native call. -/
def marshalDoc (v : RValue) : Except RubyError (Option XmlDoc) :=
  match v with
  | RValue.vNil => Except.ok none
  | RValue.vDoc d => Except.ok (some (XmlDoc.mk d))
  | _ => Except.error (RubyError.typeError "Must pass an LibXML::XML::Document object")

/-- The native document reference a document argument denotes: `none` for
`Qnil` (and for the ill-typed arguments that raise instead). -/
def docRefOf (v : RValue) : Option XmlDoc :=
  match v with
  | RValue.vDoc d => some (XmlDoc.mk d)
  | _ => none

/-- Helper: successful document marshalling yields exactly the document
reference of the argument. -/
theorem marshalDoc_ok {v : RValue} {o : Option XmlDoc}
    (h : marshalDoc v = Except.ok o) : o = docRefOf v := by
  cases v <;> simp_all [marshalDoc, docRefOf]

/-- The `case 3: case 4: case 5:` branch of `rxml_dtd_initialize`, after
`rb_scan_args(argc, argv, "23", ...)` has bound `external`, `system` and
defaulted the omitted optionals to `Qnil`.  Type checks run left to right
exactly as in the C, *before* the native creation call; on success the
wrapper's release hook is set to `NULL` (`dfreeActive := false`) and
`xmlSetTreeDoc((xmlNodePtr)xdtd, xdoc)` records the owning document on the
native object. -/
def rxml_dtd_init_subset (env : NativeEnv) (external system name doc internal : RValue) :
    List NativeCall × Except RubyError DtdInitResult :=
  match checkTString external, checkTString system, marshalOptName name, marshalDoc doc with
  | Except.ok xpublic, Except.ok xsystem, Except.ok xname, Except.ok xdoc =>
    if internal = RValue.vNil ∨ internal = RValue.vFalse then
      match env.newDtd xdoc xname (some xpublic) (some xsystem) with
      | none => ([NativeCall.newDtd], Except.error (RubyError.libxml env.lastError))
      | some xdtd =>
        ([NativeCall.newDtd],
         Except.ok { dtd := { xdtd with doc := xdoc }, dfreeActive := false })
    else
      match env.createIntSubset xdoc xname (some xpublic) (some xsystem) with
      | none => ([NativeCall.createIntSubset], Except.error (RubyError.libxml env.lastError))
      | some xdtd =>
        ([NativeCall.createIntSubset],
         Except.ok { dtd := { xdtd with doc := xdoc }, dfreeActive := false })
  | Except.error e, _, _, _ => ([], Except.error e)
  | _, Except.error e, _, _ => ([], Except.error e)
  | _, _, Except.error e, _ => ([], Except.error e)
  | _, _, _, Except.error e => ([], Except.error e)

/-- Embeds `rxml_dtd_initialize` (the variadic `XML::Dtd.new`).  The
`switch (argc)` plus `rb_scan_args` defaulting is modelled by matching on
the shape of the argument vector, with omitted optionals filled by `Qnil`.
The result pairs the trace of native creation/parse calls attempted with
either the raised error or the stored native object plus the state of the
release hook.  The 1-argument case's input-buffer wrapping
(`xmlAllocParserInputBuffer` / `xmlParserInputBufferPush`) is folded into
the `ioParseDTD` native call, matching the C, which frees the temporary
string and stores the parsed object with the release hook untouched. -/
def rxml_dtd_init (env : NativeEnv) (args : List RValue) :
    List NativeCall × Except RubyError DtdInitResult :=
  match args with
  | [external, system, name, doc, internal] =>
    rxml_dtd_init_subset env external system name doc internal
  | [external, system, name, doc] =>
    rxml_dtd_init_subset env external system name doc RValue.vNil
  | [external, system, name] =>
    rxml_dtd_init_subset env external system name RValue.vNil RValue.vNil
  | [external, system] =>
    match checkTString external with
    | Except.error e => ([], Except.error e)
    | Except.ok xpublic =>
      match checkTString system with
      | Except.error e => ([], Except.error e)
      | Except.ok xsystem =>
        match env.parseDTD xpublic xsystem with
        | none => ([NativeCall.parseDTD], Except.error (RubyError.libxml env.lastError))
        | some xdtd =>
          ([NativeCall.parseDTD],
           Except.ok { dtd := { xdtd with doc := none }, dfreeActive := true })
  | [dtd_string] =>
    match checkTString dtd_string with
    | Except.error e => ([], Except.error e)
    | Except.ok str =>
      match env.ioParseDTD str with
      | none => ([NativeCall.ioParseDTD], Except.error (RubyError.libxml env.lastError))
      | some xdtd => ([NativeCall.ioParseDTD], Except.ok { dtd := xdtd, dfreeActive := true })
  | _ =>
    ([], Except.error (RubyError.argError "wrong number of arguments"))

/-- A concrete native environment in which every creation/parse call
succeeds, returning an `XML_DTD_NODE` (tag 14) carrying the identifiers it
was given, as libxml2 does on success. -/
def envStd : NativeEnv where
  newDtd := fun xdoc xname xpublic xsystem =>
    some { name := xname, externalID := xpublic, systemID := xsystem,
           type := 14, doc := xdoc, parent := none }
  createIntSubset := fun xdoc xname xpublic xsystem =>
    some { name := xname, externalID := xpublic, systemID := xsystem,
           type := 14, doc := xdoc, parent := none }
  parseDTD := fun xpublic xsystem =>
    some { name := none, externalID := some xpublic, systemID := some xsystem,
           type := 14, doc := none, parent := none }
  ioParseDTD := fun _ =>
    some { name := none, externalID := none, systemID := none,
           type := 14, doc := none, parent := none }
  lastError := ""

/-- Counterexample to claim C2: in the create/attach-subset constructor the
release hook is disabled even when *no* document argument is given.  With
three arguments (`external_id`, `system_id`, `name`) and no document, the
constructor succeeds with `dfreeActive = false` — the claim's "if no
document is supplied, the release hook remains active" fails here. -/
theorem dtd_init_disables_release_hook_without_doc :
    rxml_dtd_init envStd
        [RValue.vStr "-//TEST//EN", RValue.vStr "http://test/x.dtd", RValue.vStr "root"] =
      ([NativeCall.newDtd],
       Except.ok
         { dtd := { name := some "root", externalID := some "-//TEST//EN",
                    systemID := some "http://test/x.dtd", type := 14,
                    doc := none, parent := none },
           dfreeActive := false }) := by
  rfl

/-- Helper: any successful run of the 3-5 argument branch leaves the
release hook disabled and the native object's owning-document reference
equal to the native document of the `doc` argument (or unset). -/
theorem dtd_init_subset_core
    (env : NativeEnv) (external system name doc internal : RValue)
    (tr : List NativeCall) (r : DtdInitResult)
    (hres : rxml_dtd_init_subset env external system name doc internal = (tr, Except.ok r)) :
    r.dfreeActive = false ∧ r.dtd.doc = docRefOf doc := by
  unfold rxml_dtd_init_subset at hres
  split at hres
  case _ xpublic xsystem xname xdoc h1 h2 hname hdoc =>
    have hxdoc : xdoc = docRefOf doc := marshalDoc_ok hdoc
    split at hres
    · split at hres
      · simp at hres
      · obtain ⟨-, hr⟩ := Prod.mk.injEq .. ▸ hres
        obtain rfl := (Except.ok.injEq ..).mp hr.symm
        exact ⟨rfl, hxdoc⟩
    · split at hres
      · simp at hres
      · obtain ⟨-, hr⟩ := Prod.mk.injEq .. ▸ hres
        obtain rfl := (Except.ok.injEq ..).mp hr.symm
        exact ⟨rfl, hxdoc⟩
  all_goals simp at hres

/-- Claim C2 (amended): whenever the create/attach-subset constructor (3-5
arguments) succeeds, the adapter's release hook becomes a no-op
(`RDATA(self)->dfree = NULL` runs unconditionally in this branch), whether
or not a document argument was given; when a document is given, the native
object's owning-document reference is set to it (`xmlSetTreeDoc`), and when
none is given the object ends up with no owning document. -/
theorem dtd_init_release_hook_noop_on_success
    (env : NativeEnv) (args : List RValue)
    (h3 : 3 ≤ args.length) (h5 : args.length ≤ 5)
    (tr : List NativeCall) (r : DtdInitResult)
    (hres : rxml_dtd_init env args = (tr, Except.ok r)) :
    r.dfreeActive = false ∧ r.dtd.doc = docRefOf (args.getD 3 RValue.vNil) := by
  rcases args with _ | ⟨a0, _ | ⟨a1, _ | ⟨a2, _ | ⟨a3, _ | ⟨a4, _ | ⟨a5, tl⟩⟩⟩⟩⟩⟩
  · simp at h3
  · simp at h3
  · simp at h3
  · exact dtd_init_subset_core env a0 a1 a2 RValue.vNil RValue.vNil tr r hres
  · exact dtd_init_subset_core env a0 a1 a2 a3 RValue.vNil tr r hres
  · exact dtd_init_subset_core env a0 a1 a2 a3 a4 tr r hres
  · simp only [List.length_cons] at h5; omega

/-- Witness for the amended C2 at a concrete successful construction with a
document argument: the release hook ends up disabled and the native object
is attached to the given document. -/
theorem dtd_init_release_hook_noop_on_success_witness :
    (DtdInitResult.mk
        { name := some "root", externalID := some "-//TEST//EN",
          systemID := some "http://test/x.dtd", type := 14,
          doc := some (XmlDoc.mk 3), parent := none } false).dfreeActive = false
    ∧ (DtdInitResult.mk
        { name := some "root", externalID := some "-//TEST//EN",
          systemID := some "http://test/x.dtd", type := 14,
          doc := some (XmlDoc.mk 3), parent := none } false).dtd.doc =
        some (XmlDoc.mk 3) :=
  dtd_init_release_hook_noop_on_success envStd
    [RValue.vStr "-//TEST//EN", RValue.vStr "http://test/x.dtd",
     RValue.vStr "root", RValue.vDoc 3]
    (by decide) (by decide) [NativeCall.newDtd] _ rfl

/-- Claim C9: the DTD constructor raises `ArgumentError` for an unsupported
argument count (zero or more than five) and `TypeError` when the document
argument is given but is not a Document instance (with the earlier
string-typed arguments well-formed); in both cases the error is raised
with an empty native-call trace, i.e. before any native creation or parse
call is attempted. -/
theorem dtd_init_argument_errors (env : NativeEnv) (args : List RValue) :
    ((args.length = 0 ∨ 5 < args.length) →
      rxml_dtd_init env args = ([], Except.error (RubyError.argError "wrong number of arguments")))
    ∧ (∀ (e s : String) (nm d : RValue) (tl : List RValue),
        args = [RValue.vStr e, RValue.vStr s, nm, d] ++ tl →
        tl.length ≤ 1 →
        (nm = RValue.vNil ∨ ∃ t, nm = RValue.vStr t) →
        d ≠ RValue.vNil →
        (∀ k, d ≠ RValue.vDoc k) →
        rxml_dtd_init env args =
          ([], Except.error (RubyError.typeError "Must pass an LibXML::XML::Document object"))) := by
  constructor
  · intro hlen
    rcases args with _ | ⟨a0, _ | ⟨a1, _ | ⟨a2, _ | ⟨a3, _ | ⟨a4, _ | ⟨a5, tl⟩⟩⟩⟩⟩⟩ <;>
      first
        | rfl
        | (exfalso; simp only [List.length_cons, List.length_nil] at hlen; omega)
  · rintro e s nm d tl rfl htl hnm hdnil hdk
    have hdm : marshalDoc d =
        Except.error (RubyError.typeError "Must pass an LibXML::XML::Document object") := by
      cases d with
      | vNil => exact absurd rfl hdnil
      | vDoc k => exact absurd rfl (hdk k)
      | _ => rfl
    have hnmok : ∃ o, marshalOptName nm = Except.ok o := by
      rcases hnm with rfl | ⟨t, rfl⟩
      · exact ⟨none, rfl⟩
      · exact ⟨some t, by simp [marshalOptName]⟩
    obtain ⟨o, hnmok⟩ := hnmok
    rcases tl with _ | ⟨t0, tl⟩
    · show rxml_dtd_init_subset env (RValue.vStr e) (RValue.vStr s) nm d RValue.vNil = _
      simp [rxml_dtd_init_subset, checkTString, hnmok, hdm]
    · rcases tl with _ | ⟨t1, tl⟩
      · show rxml_dtd_init_subset env (RValue.vStr e) (RValue.vStr s) nm d t0 = _
        simp [rxml_dtd_init_subset, checkTString, hnmok, hdm]
      · simp only [List.cons_append, List.nil_append, List.length_cons] at htl
        omega

/-- Witness for C9: the arity error at zero arguments, and the document
type error at a concrete four-argument call whose document slot holds a
string. -/
theorem dtd_init_argument_errors_witness :
    rxml_dtd_init envStd [] =
      ([], Except.error (RubyError.argError "wrong number of arguments"))
    ∧ rxml_dtd_init envStd
        [RValue.vStr "-//TEST//EN", RValue.vStr "http://test/x.dtd",
         RValue.vNil, RValue.vStr "not a document"] =
      ([], Except.error (RubyError.typeError "Must pass an LibXML::XML::Document object")) := by
  constructor
  · exact (dtd_init_argument_errors envStd []).1 (Or.inl rfl)
  · exact (dtd_init_argument_errors envStd _).2 "-//TEST//EN" "http://test/x.dtd"
      RValue.vNil (RValue.vStr "not a document") [] rfl (by decide)
      (Or.inl rfl) (by decide) (fun k h => RValue.noConfusion h)

/-- The `rxmlw_output_type` enumeration.  `stream` stands for the C
`RXMLW_OUTPUT_IO` constant (the byte-stream sink); the remaining names
match `RXMLW_OUTPUT_NONE` (file sink), `RXMLW_OUTPUT_DOC` and
`RXMLW_OUTPUT_STRING`. -/
inductive OutputType where
  | none
  | stream
  | doc
  | string
  deriving DecidableEq, Repr

/-- The `rxml_writer_object` wrapper state plus the observable state of the
native writer and its sink.  `output`, `hasBuffer` (nullness of the
`xmlBuffer` pointer), `outputType`, `closed` and `encoding` are the C
struct's fields; `buffer` is the content of the `xmlBuffer` when present;
`pending` models the native `xmlTextWriter`'s not-yet-flushed output;
`sinkBytes` models what the byte-stream sink object has received through
the write callback; `lastError` models the native library's last-error
diagnostic. -/
structure RWriter where
  output : RValue
  hasBuffer : Bool
  buffer : String
  outputType : OutputType
  closed : Bool
  encoding : String
  pending : String
  sinkBytes : List String
  lastError : String
  deriving DecidableEq, Repr

/-- Embeds `rxml_writer_write_callback`: once the session's `closed` flag
is set the callback returns 0 and forwards nothing; otherwise it forwards
the chunk to the byte sink (`rxml_write_callback(rwo->output, ...)`,
modelled as appending to `sinkBytes`) and reports the chunk's length. -/
def rxml_writer_write_callback (rwo : RWriter) (buffer : String) : Int × RWriter :=
  if rwo.closed then
    (0, rwo)
  else
    (Int.ofNat buffer.length, { rwo with sinkBytes := rwo.sinkBytes ++ [buffer] })

/-- Embeds `rxml_writer_free`: sets the `closed` flag *first*, then calls
`xmlFreeTextWriter`.  The native release may flush and hence invoke the
write callback an arbitrary number of times; those invocations are
modelled by the `releaseWrites` list of chunks it attempts to emit. -/
def rxml_writer_free (rwo : RWriter) (releaseWrites : List String) : RWriter :=
  let rwo := { rwo with closed := true }
  releaseWrites.foldl (fun s b => (rxml_writer_write_callback s b).2) rwo

/-- Embeds `XML::Writer::io` (named `rxml_writer_io` in the C): the stream
sink remembers the target object, has no `xmlBuffer`, and takes the
target's encoding, falling back to UTF-8 when it has none. -/
def rxml_writer_stream (target : RValue) (targetEncoding : Option String) : RWriter :=
  { output := target, hasBuffer := false, buffer := "",
    outputType := OutputType.stream, closed := false,
    encoding := targetEncoding.getD "UTF-8",
    pending := "", sinkBytes := [], lastError := "" }

/-- Embeds `XML::Writer::file` (`rxml_writer_file`): no retained output
object, no `xmlBuffer`, output type `RXMLW_OUTPUT_NONE`, UTF-8. -/
def rxml_writer_file : RWriter :=
  { output := RValue.vNil, hasBuffer := false, buffer := "",
    outputType := OutputType.none, closed := false, encoding := "UTF-8",
    pending := "", sinkBytes := [], lastError := "" }

/-- Embeds `XML::Writer::string` (`rxml_writer_string`): allocates the
in-memory `xmlBuffer`, initially empty, output type
`RXMLW_OUTPUT_STRING`, UTF-8. -/
def rxml_writer_string : RWriter :=
  { output := RValue.vNil, hasBuffer := true, buffer := "",
    outputType := OutputType.string, closed := false, encoding := "UTF-8",
    pending := "", sinkBytes := [], lastError := "" }

/-- Embeds `XML::Writer::document` (`rxml_writer_doc`): the native writer
builds an in-memory document, whose managed wrapper is retained as the
session's `output`. -/
def rxml_writer_doc (d : Nat) : RWriter :=
  { output := RValue.vDoc d, hasBuffer := false, buffer := "",
    outputType := OutputType.doc, closed := false, encoding := "UTF-8",
    pending := "", sinkBytes := [], lastError := "" }

/-- Modelled behaviour of `xmlTextWriterFlush` (libxml2, outside this
repository): hands the writer's pending bytes to its sink — appending to
the `xmlBuffer` for the string sink, pushing through the write callback
for the stream sink — and returns the number of bytes written, never
`-1` in this concrete model.  Claims that depend on a failing native
flush quantify over an arbitrary native flush function instead. -/
def xmlTextWriterFlushM (rwo : RWriter) : Int × RWriter :=
  match rwo.outputType with
  | OutputType.string =>
    (Int.ofNat rwo.pending.length,
     { rwo with buffer := rwo.buffer ++ rwo.pending, pending := "" })
  | OutputType.stream =>
    (Int.ofNat rwo.pending.length,
     (rxml_writer_write_callback { rwo with pending := "" } rwo.pending).2)
  | _ => (Int.ofNat rwo.pending.length, { rwo with pending := "" })

/-- Embeds `rxml_writer_flush`, parameterised by the native flush routine
(`xmlTextWriterFlush`); `empty` is the optional argument, `Qnil` when
omitted.  A native `-1` raises the last-error diagnostic; otherwise, with
an `xmlBuffer` present (string sink), the buffer's content is returned
and the buffer emptied unless the flag is non-nil falsy; without a
buffer the byte count is returned. -/
def rxml_writer_flush (nflush : RWriter → Int × RWriter) (empty : RValue) (rwo : RWriter) :
    Except RubyError (RValue × RWriter) :=
  match nflush rwo with
  | (ret, rwo) =>
    if ret = -1 then
      Except.error (RubyError.libxml rwo.lastError)
    else if rwo.hasBuffer then
      let content := RValue.vStr rwo.buffer
      if empty = RValue.vNil ∨ rtest empty = true then
        Except.ok (content, { rwo with buffer := "" })
      else
        Except.ok (content, rwo)
    else
      Except.ok (RValue.vInt ret, rwo)

/-- Embeds `rxml_writer_result`, parameterised by the native flush routine:
flushes first (raising on `-1`), then returns the sink-appropriate
artifact — the retained output object for the document sink, the buffer
content for the string sink, `Qnil` for stream and file sinks. -/
def rxml_writer_result (nflush : RWriter → Int × RWriter) (rwo : RWriter) :
    Except RubyError (RValue × RWriter) :=
  match nflush rwo with
  | (bytesWritten, rwo) =>
    if bytesWritten = -1 then
      Except.error (RubyError.libxml rwo.lastError)
    else
      match rwo.outputType with
      | OutputType.doc => Except.ok (rwo.output, rwo)
      | OutputType.string => Except.ok (RValue.vStr rwo.buffer, rwo)
      | OutputType.stream => Except.ok (RValue.vNil, rwo)
      | OutputType.none => Except.ok (RValue.vNil, rwo)

/-- Helper: folding the write callback over any chunk list is the identity
once the session is closed. -/
theorem write_callback_foldl_closed (ws : List String) (s : RWriter) (h : s.closed = true) :
    ws.foldl (fun t b => (rxml_writer_write_callback t b).2) s = s := by
  induction ws with
  | nil => rfl
  | cons b ws ih =>
    simp only [List.foldl_cons]
    rw [show (rxml_writer_write_callback s b).2 = s from by simp [rxml_writer_write_callback, h]]
    exact ih

/-- Claim C7: once the closed flag is set, every invocation of the stream
write callback is a no-op that forwards nothing to the byte sink, and
since `rxml_writer_free` sets the flag before releasing the native
writer, the callbacks issued during teardown leave the sink untouched. -/
theorem write_callback_closed_noop (rwo : RWriter) (ws : List String) :
    (∀ buffer, rwo.closed = true → rxml_writer_write_callback rwo buffer = (0, rwo))
    ∧ (rxml_writer_free rwo ws).closed = true
    ∧ (rxml_writer_free rwo ws).sinkBytes = rwo.sinkBytes := by
  refine ⟨fun buffer h => by simp [rxml_writer_write_callback, h], ?_, ?_⟩
  · unfold rxml_writer_free
    rw [write_callback_foldl_closed ws _ rfl]
  · unfold rxml_writer_free
    rw [write_callback_foldl_closed ws _ rfl]

/-- Witness for C7: a closed session's callback drops a concrete chunk,
and a teardown that attempts two callback writes leaves a concrete open
session's sink unchanged. -/
theorem write_callback_closed_noop_witness :
    rxml_writer_write_callback
        { rxml_writer_stream RValue.vOther none with closed := true } "chunk" =
      (0, { rxml_writer_stream RValue.vOther none with closed := true })
    ∧ (rxml_writer_free (rxml_writer_stream RValue.vOther none) ["a", "b"]).sinkBytes =
        (rxml_writer_stream RValue.vOther none).sinkBytes := by
  refine ⟨?_, ?_⟩
  · exact (write_callback_closed_noop
      { rxml_writer_stream RValue.vOther none with closed := true } []).1 "chunk" rfl
  · exact (write_callback_closed_noop (rxml_writer_stream RValue.vOther none) ["a", "b"]).2.2

/-- Embeds `encodeStrings` for one text argument: `Qnil` marshals to
`NULL`; a string is transcoded to the session's encoding (transcoding is
content-preserving in this model) and handed over; any other value raises
`TypeError` from `rb_str_conv_enc` / `StringValueCStr`. -/
def encodeRValue (v : RValue) : Except RubyError (Option String) :=
  match v with
  | RValue.vNil => Except.ok none
  | RValue.vStr s => Except.ok (some s)
  | _ => Except.error (RubyError.typeError "wrong argument type (expected String)")

/-- Embeds `invoke_void_arg_function`: calls the given native writer
routine and maps its status code to `Qfalse` exactly on `-1`, `Qtrue`
otherwise, raising nothing. -/
def invoke_void_arg_function (fn : RWriter → Int × RWriter) (rwo : RWriter) :
    Except RubyError (RValue × RWriter) :=
  match fn rwo with
  | (result, rwo) =>
    Except.ok (if result = -1 then RValue.vFalse else RValue.vTrue, rwo)

/-- Embeds `invoke_single_arg_function`: encodes the one text argument,
calls the given native writer routine on it, and maps its status code to
`Qfalse` exactly on `-1`, `Qtrue` otherwise, raising nothing for any
native outcome. -/
def invoke_single_arg_function (fn : RWriter → Option String → Int × RWriter)
    (rwo : RWriter) (value : RValue) : Except RubyError (RValue × RWriter) :=
  match encodeRValue value with
  | Except.error e => Except.error e
  | Except.ok xvalue =>
    match fn rwo xvalue with
    | (result, rwo) =>
      Except.ok (if result = -1 then RValue.vFalse else RValue.vTrue, rwo)

/-- Embeds `rxml_writer_set_indent`, parameterised by
`xmlTextWriterSetIndent`: passes the Ruby-truthiness of the argument and
maps `-1` to `Qfalse`, anything else to `Qtrue`. -/
def rxml_writer_set_indent (fn : RWriter → Bool → Int × RWriter) (rwo : RWriter)
    (indentation : RValue) : Except RubyError (RValue × RWriter) :=
  match fn rwo (rtest indentation) with
  | (ret, rwo) =>
    Except.ok (if ret = -1 then RValue.vFalse else RValue.vTrue, rwo)

/-- The element-related `xmlTextWriter` entry points the element
operations call, kept abstract (their bodies live in libxml2): each takes
the writer state and the already-encoded text arguments and returns the
status code (`-1` on error) with the updated state. -/
structure NativeWriter where
  startElement : RWriter → Option String → Int × RWriter
  startElementNS : RWriter → Option String → Option String → Option String → Int × RWriter
  endElement : RWriter → Int × RWriter
  writeElement : RWriter → Option String → Option String → Int × RWriter
  writeElementNS :
    RWriter → Option String → Option String → Option String → Option String → Int × RWriter

/-- Embeds `rxml_writer_start_element` via `invoke_single_arg_function`. -/
def rxml_writer_start_element (nw : NativeWriter) (rwo : RWriter) (name : RValue) :
    Except RubyError (RValue × RWriter) :=
  invoke_single_arg_function nw.startElement rwo name

/-- Embeds `rxml_writer_end_element` via `invoke_void_arg_function`. -/
def rxml_writer_end_element (nw : NativeWriter) (rwo : RWriter) :
    Except RubyError (RValue × RWriter) :=
  invoke_void_arg_function nw.endElement rwo

/-- Embeds `rxml_writer_start_element_ns`: encodes the namespace prefix,
name and namespace URI in order (the omitted URI arrives as `Qnil`), then
calls `xmlTextWriterStartElementNS`. -/
def rxml_writer_start_element_ns (nw : NativeWriter) (rwo : RWriter)
    (pfx name nsuri : RValue) : Except RubyError (RValue × RWriter) :=
  match encodeRValue pfx with
  | Except.error e => Except.error e
  | Except.ok xpfx =>
    match encodeRValue name with
    | Except.error e => Except.error e
    | Except.ok xname =>
      match encodeRValue nsuri with
      | Except.error e => Except.error e
      | Except.ok xnsuri =>
        match nw.startElementNS rwo xpfx xname xnsuri with
        | (result, rwo) =>
          Except.ok (if result = -1 then RValue.vFalse else RValue.vTrue, rwo)

/-- Embeds `rxml_writer_write_element` (`rb_scan_args "11"`: an omitted
content arrives as `Qnil`).  With no content it performs exactly
`start_element` and, unless that returned `Qfalse`, `end_element`; with
content it calls the native all-at-once `xmlTextWriterWriteElement`. -/
def rxml_writer_write_element (nw : NativeWriter) (rwo : RWriter) (name content : RValue) :
    Except RubyError (RValue × RWriter) :=
  if content = RValue.vNil then
    match rxml_writer_start_element nw rwo name with
    | Except.error e => Except.error e
    | Except.ok (v, rwo) =>
      if v = RValue.vFalse then Except.ok (RValue.vFalse, rwo)
      else rxml_writer_end_element nw rwo
  else
    match encodeRValue name with
    | Except.error e => Except.error e
    | Except.ok xname =>
      match encodeRValue content with
      | Except.error e => Except.error e
      | Except.ok xcontent =>
        match nw.writeElement rwo xname xcontent with
        | (result, rwo) =>
          Except.ok (if result = -1 then RValue.vFalse else RValue.vTrue, rwo)

/-- Embeds `rxml_writer_write_element_ns` (`rb_scan_args "22"`).  With no
content it performs exactly `start_element_ns` and, unless that returned
`Qfalse`, `end_element`; with content it calls the native all-at-once
`xmlTextWriterWriteElementNS`. -/
def rxml_writer_write_element_ns (nw : NativeWriter) (rwo : RWriter)
    (pfx name nsuri content : RValue) : Except RubyError (RValue × RWriter) :=
  if content = RValue.vNil then
    match rxml_writer_start_element_ns nw rwo pfx name nsuri with
    | Except.error e => Except.error e
    | Except.ok (v, rwo) =>
      if v = RValue.vFalse then Except.ok (RValue.vFalse, rwo)
      else rxml_writer_end_element nw rwo
  else
    match encodeRValue pfx with
    | Except.error e => Except.error e
    | Except.ok xpfx =>
      match encodeRValue name with
      | Except.error e => Except.error e
      | Except.ok xname =>
        match encodeRValue nsuri with
        | Except.error e => Except.error e
        | Except.ok xnsuri =>
          match encodeRValue content with
          | Except.error e => Except.error e
          | Except.ok xcontent =>
            match nw.writeElementNS rwo xpfx xname xnsuri xcontent with
            | (result, rwo) =>
              Except.ok (if result = -1 then RValue.vFalse else RValue.vTrue, rwo)

/-- Claim C3: each start/write/end/set operation helper returns exactly
`true` when the native call succeeds and exactly `false` when it reports
`-1`, for *any* native outcome — the `Except.ok` result shape shows no
exception is raised on a native error (the single-argument helper can
raise only the argument-marshalling `TypeError`, which the hypothesis
rules out, not a native-error exception). -/
theorem writer_operations_boolean
    (fn : RWriter → Int × RWriter) (g : RWriter → Option String → Int × RWriter)
    (sfn : RWriter → Bool → Int × RWriter) (rwo : RWriter)
    (value indentation : RValue) (xvalue : Option String) :
    (invoke_void_arg_function fn rwo =
      Except.ok (if (fn rwo).1 = -1 then RValue.vFalse else RValue.vTrue, (fn rwo).2))
    ∧ (encodeRValue value = Except.ok xvalue →
        invoke_single_arg_function g rwo value =
          Except.ok (if (g rwo xvalue).1 = -1 then RValue.vFalse else RValue.vTrue,
                     (g rwo xvalue).2))
    ∧ (rxml_writer_set_indent sfn rwo indentation =
        Except.ok (if (sfn rwo (rtest indentation)).1 = -1 then RValue.vFalse else RValue.vTrue,
                   (sfn rwo (rtest indentation)).2)) := by
  refine ⟨?_, ?_, ?_⟩
  · rcases hfn : fn rwo with ⟨ret, s⟩
    simp [invoke_void_arg_function, hfn]
  · intro henc
    rcases hg : g rwo xvalue with ⟨ret, s⟩
    simp [invoke_single_arg_function, henc, hg]
  · rcases hs : sfn rwo (rtest indentation) with ⟨ret, s⟩
    simp [rxml_writer_set_indent, hs]

/-- Witness for C3: a succeeding void-argument call maps to `true`, a
failing single-argument call maps to `false`, and a failing `set_indent`
maps to `false`, at concrete native routines and a concrete session. -/
theorem writer_operations_boolean_witness :
    invoke_void_arg_function (fun s => ((0 : Int), s)) rxml_writer_string =
      Except.ok (RValue.vTrue, rxml_writer_string)
    ∧ invoke_single_arg_function (fun s _ => ((-1 : Int), s)) rxml_writer_string
        (RValue.vStr "a") =
      Except.ok (RValue.vFalse, rxml_writer_string)
    ∧ rxml_writer_set_indent (fun s _ => ((-1 : Int), s)) rxml_writer_string RValue.vTrue =
      Except.ok (RValue.vFalse, rxml_writer_string) := by
  refine ⟨?_, ?_, ?_⟩
  · exact (writer_operations_boolean (fun s => ((0 : Int), s)) (fun s _ => ((0 : Int), s))
      (fun s _ => ((0 : Int), s)) rxml_writer_string RValue.vNil RValue.vNil none).1
  · exact (writer_operations_boolean (fun s => ((0 : Int), s)) (fun s _ => ((-1 : Int), s))
      (fun s _ => ((0 : Int), s)) rxml_writer_string (RValue.vStr "a") RValue.vNil
      (some "a")).2.1 rfl
  · exact (writer_operations_boolean (fun s => ((0 : Int), s)) (fun s _ => ((0 : Int), s))
      (fun s _ => ((-1 : Int), s)) rxml_writer_string RValue.vNil RValue.vTrue none).2.2

/-- Claim C4: `write_element` with a name and no content is exactly the
composition of `start_element` with that name followed by `end_element`
(same return value and same final state, hence byte-for-byte the same
output), and each decomposed composite shortcut (`write_element`,
`write_element_ns` with omitted content) returns `false` immediately
after a failed start step, leaving the state exactly as the start step
left it — the write/end steps are not attempted. -/
theorem write_element_decomposition
    (nw : NativeWriter) (rwo rwo1 : RWriter) (name pfx nsuri : RValue) :
    (rxml_writer_start_element nw rwo name = Except.ok (RValue.vTrue, rwo1) →
      rxml_writer_write_element nw rwo name RValue.vNil = rxml_writer_end_element nw rwo1)
    ∧ (rxml_writer_start_element nw rwo name = Except.ok (RValue.vFalse, rwo1) →
      rxml_writer_write_element nw rwo name RValue.vNil = Except.ok (RValue.vFalse, rwo1))
    ∧ (rxml_writer_start_element_ns nw rwo pfx name nsuri = Except.ok (RValue.vTrue, rwo1) →
      rxml_writer_write_element_ns nw rwo pfx name nsuri RValue.vNil =
        rxml_writer_end_element nw rwo1)
    ∧ (rxml_writer_start_element_ns nw rwo pfx name nsuri = Except.ok (RValue.vFalse, rwo1) →
      rxml_writer_write_element_ns nw rwo pfx name nsuri RValue.vNil =
        Except.ok (RValue.vFalse, rwo1)) := by
  refine ⟨?_, ?_, ?_, ?_⟩ <;> intro h <;>
    simp [rxml_writer_write_element, rxml_writer_write_element_ns, h]

/-- A concrete native writer used to witness the element theorems: start
appends an open tag to the pending output, end appends a close marker. -/
def nwModel : NativeWriter where
  startElement := fun rwo n =>
    (0, { rwo with pending := rwo.pending ++ "<" ++ n.getD "" ++ ">" })
  startElementNS := fun rwo _ n _ =>
    (0, { rwo with pending := rwo.pending ++ "<" ++ n.getD "" ++ ">" })
  endElement := fun rwo => (0, { rwo with pending := rwo.pending ++ "</>" })
  writeElement := fun rwo _ _ => (0, rwo)
  writeElementNS := fun rwo _ _ _ _ => (0, rwo)

/-- A concrete native writer whose every call reports failure. -/
def nwFail : NativeWriter where
  startElement := fun rwo _ => (-1, rwo)
  startElementNS := fun rwo _ _ _ => (-1, rwo)
  endElement := fun rwo => (-1, rwo)
  writeElement := fun rwo _ _ => (-1, rwo)
  writeElementNS := fun rwo _ _ _ _ => (-1, rwo)

/-- Witness for C4 at concrete native writers and a concrete session: the
content-less `write_element` agrees with `start_element` followed by
`end_element` where the start succeeds, and stops with `false` and the
post-start state where the start fails; likewise for the namespaced
variant. -/
theorem write_element_decomposition_witness :
    rxml_writer_write_element nwModel rxml_writer_string (RValue.vStr "a") RValue.vNil =
      rxml_writer_end_element nwModel { rxml_writer_string with pending := "<a>" }
    ∧ rxml_writer_write_element nwFail rxml_writer_string (RValue.vStr "a") RValue.vNil =
      Except.ok (RValue.vFalse, rxml_writer_string)
    ∧ rxml_writer_write_element_ns nwModel rxml_writer_string
        RValue.vNil (RValue.vStr "a") RValue.vNil RValue.vNil =
      rxml_writer_end_element nwModel { rxml_writer_string with pending := "<a>" }
    ∧ rxml_writer_write_element_ns nwFail rxml_writer_string
        RValue.vNil (RValue.vStr "a") RValue.vNil RValue.vNil =
      Except.ok (RValue.vFalse, rxml_writer_string) := by
  refine ⟨?_, ?_, ?_, ?_⟩
  · exact (write_element_decomposition nwModel rxml_writer_string
      { rxml_writer_string with pending := "<a>" } (RValue.vStr "a")
      RValue.vNil RValue.vNil).1 rfl
  · exact (write_element_decomposition nwFail rxml_writer_string rxml_writer_string
      (RValue.vStr "a") RValue.vNil RValue.vNil).2.1 rfl
  · exact (write_element_decomposition nwModel rxml_writer_string
      { rxml_writer_string with pending := "<a>" } (RValue.vStr "a")
      RValue.vNil RValue.vNil).2.2.1 rfl
  · exact (write_element_decomposition nwFail rxml_writer_string rxml_writer_string
      (RValue.vStr "a") RValue.vNil RValue.vNil).2.2.2 rfl

/-- Helper: the modelled native flush always reports the pending byte
count (never `-1`) and never changes the `xmlBuffer` pointer's nullness
or the output type. -/
theorem xmlTextWriterFlushM_spec (w : RWriter) :
    (xmlTextWriterFlushM w).1 = Int.ofNat w.pending.length
    ∧ (xmlTextWriterFlushM w).2.hasBuffer = w.hasBuffer
    ∧ (xmlTextWriterFlushM w).2.outputType = w.outputType := by
  cases hty : w.outputType
  case stream =>
    simp only [xmlTextWriterFlushM, hty, rxml_writer_write_callback]
    split
    · simp [hty]
    · simp [hty]
  all_goals simp [xmlTextWriterFlushM, hty]

/-- Claim C5: with the string sink, `flush` returns the buffer's current
text content (the previously buffered text plus the bytes the native
flush just emitted) and empties the buffer afterwards unless the
empty-after flag is the explicit `false` (an omitted flag arrives as
`Qnil` and empties), so an immediately following `flush` returns the
empty string; for a sink without the in-memory buffer, `flush` returns
the flushed byte count. -/
theorem flush_string_sink_behaviour (rwo : RWriter) (empty empty2 : RValue)
    (hbuf : rwo.hasBuffer = true) (hty : rwo.outputType = OutputType.string) :
    (rxml_writer_flush xmlTextWriterFlushM empty rwo =
      Except.ok (RValue.vStr (rwo.buffer ++ rwo.pending),
        { rwo with
            buffer := if empty = RValue.vFalse then rwo.buffer ++ rwo.pending else "",
            pending := "" }))
    ∧ (rxml_writer_flush xmlTextWriterFlushM empty2 { rwo with buffer := "", pending := "" } =
        Except.ok (RValue.vStr "", { rwo with buffer := "", pending := "" }))
    ∧ (∀ w2 : RWriter, w2.hasBuffer = false →
        ∃ s, rxml_writer_flush xmlTextWriterFlushM empty w2 =
          Except.ok (RValue.vInt (Int.ofNat w2.pending.length), s)) := by
  have hne : ∀ n : Nat, ¬(Int.ofNat n = -1) := by
    intro n
    have h0 : (0 : Int) ≤ Int.ofNat n := Int.ofNat_nonneg n
    omega
  refine ⟨?_, ?_, ?_⟩
  · by_cases hf : empty = RValue.vFalse
    · subst hf
      simp [rxml_writer_flush, xmlTextWriterFlushM, hty, hbuf, hne _, rtest]
    · have hcond : empty = RValue.vNil ∨ rtest empty = true := by
        cases empty <;> simp_all [rtest]
      simp [rxml_writer_flush, xmlTextWriterFlushM, hty, hbuf, hne _, hcond, hf]
  · have happ : ("" ++ "" : String) = "" := rfl
    by_cases hf : empty2 = RValue.vFalse
    · subst hf
      simp [rxml_writer_flush, xmlTextWriterFlushM, hty, hbuf, hne _, rtest, happ]
    · have hcond : empty2 = RValue.vNil ∨ rtest empty2 = true := by
        cases empty2 <;> simp_all [rtest]
      simp [rxml_writer_flush, xmlTextWriterFlushM, hty, hbuf, hne _, hcond, hf, happ]
  · intro w2 h2
    obtain ⟨h1, hB, -⟩ := xmlTextWriterFlushM_spec w2
    refine ⟨(xmlTextWriterFlushM w2).2, ?_⟩
    rcases hfl : xmlTextWriterFlushM w2 with ⟨ret, s⟩
    rw [hfl] at h1 hB
    simp only at h1 hB
    have hne2 : ¬(ret = -1) := by rw [h1]; exact hne _
    rw [h2] at hB
    simp [rxml_writer_flush, hfl, hne2, hB, h1]

/-- Witness for C5 at a concrete string-sink session holding "ab" in the
buffer and "c" pending: the first flush returns "abc" and empties, the
second flush returns "", and a concrete file-sink session's flush
returns the byte count 0. -/
theorem flush_string_sink_behaviour_witness :
    rxml_writer_flush xmlTextWriterFlushM RValue.vNil
        { rxml_writer_string with buffer := "ab", pending := "c" } =
      Except.ok (RValue.vStr "abc",
        { rxml_writer_string with buffer := "", pending := "" })
    ∧ rxml_writer_flush xmlTextWriterFlushM RValue.vNil
        { rxml_writer_string with buffer := "", pending := "" } =
      Except.ok (RValue.vStr "", { rxml_writer_string with buffer := "", pending := "" })
    ∧ ∃ s, rxml_writer_flush xmlTextWriterFlushM RValue.vNil rxml_writer_file =
        Except.ok (RValue.vInt 0, s) := by
  have h := flush_string_sink_behaviour
    { rxml_writer_string with buffer := "ab", pending := "c" }
    RValue.vNil RValue.vNil rfl rfl
  exact ⟨h.1, h.2.1, h.2.2 rxml_writer_file rfl⟩

/-- Claim C6: `result` first flushes and then returns the sink-appropriate
artifact — the retained wrapped Document for the document sink, the full
accumulated text (previously flushed buffer content plus the bytes the
flush just emitted) for the string sink, and `nil` for the stream and
file sinks; the document-sink constructor indeed retains the wrapped
document as the session's output. -/
theorem result_sink_artifacts (nflush : RWriter → Int × RWriter) (rwo : RWriter) (d : Nat) :
    ((nflush rwo).1 ≠ -1 →
      (((nflush rwo).2.outputType = OutputType.doc →
          rxml_writer_result nflush rwo = Except.ok ((nflush rwo).2.output, (nflush rwo).2))
        ∧ (((nflush rwo).2.outputType = OutputType.stream ∨
             (nflush rwo).2.outputType = OutputType.none) →
          rxml_writer_result nflush rwo = Except.ok (RValue.vNil, (nflush rwo).2))))
    ∧ (rwo.outputType = OutputType.string →
        rxml_writer_result xmlTextWriterFlushM rwo =
          Except.ok (RValue.vStr (rwo.buffer ++ rwo.pending),
            { rwo with buffer := rwo.buffer ++ rwo.pending, pending := "" }))
    ∧ (rxml_writer_doc d).output = RValue.vDoc d := by
  refine ⟨?_, ?_, rfl⟩
  · rcases hfl : nflush rwo with ⟨ret, s⟩
    intro hne
    have hne' : ret ≠ -1 := hne
    constructor
    · intro hdoc
      have hdoc' : s.outputType = OutputType.doc := hdoc
      simp [rxml_writer_result, hfl, hne', hdoc']
    · intro hio
      have hio' : s.outputType = OutputType.stream ∨ s.outputType = OutputType.none := hio
      rcases hio' with h | h <;> simp [rxml_writer_result, hfl, hne', h]
  · intro hty
    have hne : ¬(Int.ofNat rwo.pending.length = -1) := by
      have h0 : (0 : Int) ≤ Int.ofNat rwo.pending.length := Int.ofNat_nonneg _
      omega
    simp [rxml_writer_result, xmlTextWriterFlushM, hty, hne]

/-- Witness for C6 at concrete sessions of each sink kind, with a
succeeding native flush. -/
theorem result_sink_artifacts_witness :
    rxml_writer_result (fun s => ((0 : Int), s)) (rxml_writer_doc 7) =
      Except.ok (RValue.vDoc 7, rxml_writer_doc 7)
    ∧ rxml_writer_result (fun s => ((0 : Int), s)) (rxml_writer_stream RValue.vOther none) =
      Except.ok (RValue.vNil, rxml_writer_stream RValue.vOther none)
    ∧ rxml_writer_result (fun s => ((0 : Int), s)) rxml_writer_file =
      Except.ok (RValue.vNil, rxml_writer_file)
    ∧ rxml_writer_result xmlTextWriterFlushM
        { rxml_writer_string with buffer := "ab", pending := "c" } =
      Except.ok (RValue.vStr "abc",
        { rxml_writer_string with buffer := "abc", pending := "" })
    ∧ (rxml_writer_doc 7).output = RValue.vDoc 7 := by
  refine ⟨?_, ?_, ?_, ?_, ?_⟩
  · exact ((result_sink_artifacts (fun s => ((0 : Int), s)) (rxml_writer_doc 7) 7).1
      (by decide)).1 rfl
  · exact ((result_sink_artifacts (fun s => ((0 : Int), s))
      (rxml_writer_stream RValue.vOther none) 7).1 (by decide)).2 (Or.inl rfl)
  · exact ((result_sink_artifacts (fun s => ((0 : Int), s)) rxml_writer_file 7).1
      (by decide)).2 (Or.inr rfl)
  · exact (result_sink_artifacts xmlTextWriterFlushM
      { rxml_writer_string with buffer := "ab", pending := "c" } 7).2.1 rfl
  · exact (result_sink_artifacts (fun s => ((0 : Int), s)) rxml_writer_file 7).2.2

/-- Claim C10: unlike the start/write/end operations, `flush` and `result`
raise an exception carrying the native library's last-error diagnostic
when the underlying native flush reports `-1`, and a `false` return from
either operation is impossible: `flush` only ever returns a string or a
byte count, and `result` only ever returns the session's retained output
object (never `false` — the constructors store `Qnil`, the stream target
or a wrapped Document there, which the hypothesis records), a string, or
`nil`. -/
theorem flush_result_raise_on_native_error
    (nflush : RWriter → Int × RWriter) (empty : RValue) (rwo : RWriter) :
    ((nflush rwo).1 = -1 →
      rxml_writer_flush nflush empty rwo =
        Except.error (RubyError.libxml (nflush rwo).2.lastError)
      ∧ rxml_writer_result nflush rwo =
        Except.error (RubyError.libxml (nflush rwo).2.lastError))
    ∧ (∀ v s, rxml_writer_flush nflush empty rwo = Except.ok (v, s) →
        v ≠ RValue.vFalse)
    ∧ (∀ v s, (nflush rwo).2.output ≠ RValue.vFalse →
        rxml_writer_result nflush rwo = Except.ok (v, s) →
        v ≠ RValue.vFalse) := by
  rcases hfl : nflush rwo with ⟨ret, s0⟩
  refine ⟨?_, ?_, ?_⟩
  · intro hret
    have hret' : ret = -1 := hret
    constructor
    · simp [rxml_writer_flush, hfl, hret']
    · simp [rxml_writer_result, hfl, hret']
  · intro v s heq
    by_cases hret : ret = -1
    · simp [rxml_writer_flush, hfl, hret] at heq
    · by_cases hb : s0.hasBuffer
      · by_cases hcond : empty = RValue.vNil ∨ rtest empty = true
        · simp [rxml_writer_flush, hfl, hret, hb, hcond] at heq
          simp [← heq.1]
        · simp [rxml_writer_flush, hfl, hret, hb, hcond] at heq
          simp [← heq.1]
      · simp [rxml_writer_flush, hfl, hret, hb] at heq
        simp [← heq.1]
  · intro v s hout heq
    have hout' : s0.output ≠ RValue.vFalse := hout
    by_cases hret : ret = -1
    · simp [rxml_writer_result, hfl, hret] at heq
    · cases hty : s0.outputType <;>
        simp [rxml_writer_result, hfl, hret, hty] at heq <;>
        simp_all [← heq.1, hout']

/-- Witness for C10: a native flush reporting `-1` makes concrete `flush`
and `result` calls raise the last-error diagnostic, and concrete
succeeding calls return a string and a wrapped Document respectively,
neither of which is `false`. -/
theorem flush_result_raise_on_native_error_witness :
    (rxml_writer_flush (fun s => ((-1 : Int), s)) RValue.vNil rxml_writer_string =
      Except.error (RubyError.libxml "")
     ∧ rxml_writer_result (fun s => ((-1 : Int), s)) rxml_writer_string =
      Except.error (RubyError.libxml ""))
    ∧ RValue.vStr "" ≠ RValue.vFalse
    ∧ RValue.vDoc 7 ≠ RValue.vFalse := by
  refine ⟨?_, ?_, ?_⟩
  · exact (flush_result_raise_on_native_error (fun s => ((-1 : Int), s))
      RValue.vNil rxml_writer_string).1 rfl
  · exact (flush_result_raise_on_native_error (fun s => ((0 : Int), s))
      RValue.vNil rxml_writer_string).2.1 (RValue.vStr "")
      { rxml_writer_string with buffer := "" } rfl
  · exact (flush_result_raise_on_native_error (fun s => ((0 : Int), s))
      RValue.vNil (rxml_writer_doc 7)).2.2 (RValue.vDoc 7) (rxml_writer_doc 7)
      (by decide) rfl

end LibXmlRuby
